import Mathlib

/-!
Shallow embedding of the zkChan backend (`src/server.js`), an Express proxy
in front of the Jupiter aggregator, together with proofs about its
request-validation-and-proxy contract.

Modelling conventions:
* JSON values parsed from request/response bodies are the inductive `Json`
  below.  JSON numbers are modelled as rationals (every JSON numeric literal
  denotes a rational; the zod check `.int()` becomes `den = 1`).
* JavaScript `undefined` is modelled as `Option.none` at the points where it
  matters: property access on an object returns `Option Json`, and object
  literals whose properties may be `undefined` are built with `mkObj`, which
  drops absent properties exactly as `JSON.stringify` does.
* Thrown JS errors carry a message string; fallible code returns
  `Except String`.
* Object keys are assumed unique (bodies come from `JSON.parse`, which keeps
  one binding per key), so field access is association-list lookup.
* String length models the JS `.length` used by zod's `.min(n)`.
-/

namespace ZkChan

/-- A JSON value, as produced by `JSON.parse` / consumed by `res.json`. -/
inductive Json where
  | null
  | bool (b : Bool)
  | num (q : Rat)
  | str (s : String)
  | arr (elems : List Json)
  | obj (fields : List (String × Json))
deriving Repr

/-- JS property access `t[k]` on a parsed JSON value; `none` models
`undefined` (the field is missing, or the value is not an object). -/
def objField : Json → String → Option Json
  | Json.obj fs, k => fs.lookup k
  | _, _ => none

/-- JS truthiness of a (non-`undefined`) JSON value. -/
def jsTruthy : Json → Bool
  | Json.null => false
  | Json.bool b => b
  | Json.num q => decide (q ≠ 0)
  | Json.str s => decide (s ≠ "")
  | Json.arr _ => true
  | Json.obj _ => true

mutual
/-- JS `String(v)` for a JSON value (arrays join elements by commas, objects print
as `[object Object]`; non-integer numeric rendering uses the rational
num/den form, a corner no API value exercises). -/
def jsToString : Json → String
  | Json.null => "null"
  | Json.bool b => cond b "true" "false"
  | Json.num q => toString q
  | Json.str s => s
  | Json.obj _ => "[object Object]"
  | Json.arr xs => jsArrayToString xs

/-- JS `Array.prototype.toString`: elements joined by commas, `null` rendered
as the empty string. -/
def jsArrayToString : List Json → String
  | [] => ""
  | [Json.null] => ""
  | [x] => jsToString x
  | Json.null :: xs => "," ++ jsArrayToString xs
  | x :: xs => jsToString x ++ "," ++ jsArrayToString xs
end

/-- Build a JS object literal some of whose property values may be
`undefined` (`none`): serialization drops those properties. -/
def mkObj (fields : List (String × Option Json)) : Json :=
  Json.obj (fields.filterMap fun kv => kv.2.map fun v => (kv.1, v))

/-- The error body `{ok:false, error}` used by every error response. -/
def errBody (e : String) : Json :=
  Json.obj [("ok", Json.bool false), ("error", Json.str e)]

/-- JS `String(err.message || err)` applied to a caught `Error`: the message
itself when non-empty, otherwise the stringified error object. -/
def catchMsg (m : String) : String :=
  if m = "" then "Error" else m

/-! ## Upstream client (`fetchJSON`, `src/server.js` lines 44-55) -/

/-- Outcome of the outbound `fetch`: the timer aborted it, the network
failed, or a response arrived with a status code and a body that either
parsed as JSON (`some`) or did not (`none`, the `.catch(()=>({}))` case). -/
inductive UpstreamResult where
  | timeout
  | networkError (msg : String)
  | response (status : Nat) (body : Option Json)

/-- The `Response.ok` predicate: status in the 2xx success range. -/
def statusOk (st : Nat) : Bool := decide (200 ≤ st) && decide (st < 300)

/-- The generic message thrown for a non-2xx upstream status. -/
def fetchFailedMsg (st : Nat) : String := "Fetch failed: " ++ toString st

/-- `fetchJSON(url, init)`: parse the body as JSON regardless of status
(empty object on parse failure), return it on a 2xx status, otherwise throw
an error whose message is the truthy `error` field of the parsed body when
there is one, and the generic fetch-failed message otherwise. A timeout
aborts the fetch,
which rejects with an abort error. -/
def fetchJSON : UpstreamResult → Except String Json
  | UpstreamResult.timeout => Except.error "This operation was aborted"
  | UpstreamResult.networkError m => Except.error m
  | UpstreamResult.response st body =>
      let js := body.getD (Json.obj [])
      if statusOk st then Except.ok js
      else
        Except.error
          (match objField js "error" with
           | some v => if jsTruthy v then jsToString v else fetchFailedMsg st
           | none => fetchFailedMsg st)

/-! ## Schema validators (zod `QuoteBody` / `SwapBody`, lines 58-73)

Each zod field chain becomes one small `Except`-valued function; the object
schema runs them over the declared keys in declaration order.  (zod collects
every issue before failing; we return the first failing field's issue, which
agrees with zod on success/failure and on the produced value.) -/

/-- The regex test for the chain `z.string().regex(/^\d+$/)` on `amount`:
one or more ASCII decimal digits. -/
def isDigitString (s : String) : Bool :=
  !s.data.isEmpty && s.data.all Char.isDigit

/-- Field chain `z.string().min(n)`. -/
def parseStringMin (fs : List (String × Json)) (k : String) (n : Nat) :
    Except String String :=
  match fs.lookup k with
  | some (Json.str s) =>
      if n ≤ s.length then Except.ok s
      else Except.error (k ++ ": String must contain at least " ++
        toString n ++ " character(s)")
  | some _ => Except.error (k ++ ": Expected string")
  | none => Except.error (k ++ ": Required")

/-- Field chain for `amount`. -/
def parseDigitString (fs : List (String × Json)) (k : String) :
    Except String String :=
  match fs.lookup k with
  | some (Json.str s) =>
      if isDigitString s then Except.ok s
      else Except.error (k ++ ": Invalid")
  | some _ => Except.error (k ++ ": Expected string")
  | none => Except.error (k ++ ": Required")

/-- Field chain `z.number().int().min(lo).max(hi).default(d)` (also covering
the `.min(0).optional().default(0)` fee field): an absent field takes the
default; a present one must be an integer-valued number within bounds.  The
validated value is returned as the integer it denotes. -/
def parseIntRange (v : Option Json) (k : String) (lo hi d : Int) :
    Except String Int :=
  match v with
  | none => Except.ok d
  | some (Json.num q) =>
      if q.den = 1 then
        if lo ≤ q.num ∧ q.num ≤ hi then Except.ok q.num
        else Except.error (k ++ ": Number out of range")
      else Except.error (k ++ ": Expected integer, received float")
  | some _ => Except.error (k ++ ": Expected number")

/-- Field chain `z.boolean().optional().default(d)`. -/
def parseBoolField (fs : List (String × Json)) (k : String) (d : Bool) :
    Except String Bool :=
  match fs.lookup k with
  | none => Except.ok d
  | some (Json.bool b) => Except.ok b
  | some _ => Except.error (k ++ ": Expected boolean")

/-- Field chain `z.record(z.any())` for `quoteResponse`: any plain object. -/
def parseRecordField (fs : List (String × Json)) (k : String) :
    Except String (List (String × Json)) :=
  match fs.lookup k with
  | some (Json.obj o) => Except.ok o
  | some _ => Except.error (k ++ ": Expected object")
  | none => Except.error (k ++ ": Required")

/-- The validated quote request (`QuoteBody.parse` output). `slippageBps` is
integer-valued after validation, so it is carried as an `Int`. -/
structure QuoteData where
  inputMint : String
  outputMint : String
  amount : String
  slippageBps : Int
  onlyDirectRoutes : Bool
deriving Repr, DecidableEq

/-- `QuoteBody.parse(req.body)` (lines 58-64). -/
def validateQuote (j : Json) : Except String QuoteData :=
  match j with
  | Json.obj fs => do
      let inputMint ← parseStringMin fs "inputMint" 8
      let outputMint ← parseStringMin fs "outputMint" 8
      let amount ← parseDigitString fs "amount"
      let slippageBps ← parseIntRange (fs.lookup "slippageBps") "slippageBps" 1 1000 50
      let onlyDirectRoutes ← parseBoolField fs "onlyDirectRoutes" false
      pure ⟨inputMint, outputMint, amount, slippageBps, onlyDirectRoutes⟩
  | _ => Except.error "Expected object, received other type"

/-- The validated swap request (`SwapBody.parse` output). -/
structure SwapData where
  userPublicKey : String
  quoteResponse : List (String × Json)
  wrapAndUnwrapSol : Bool
  useSharedAccounts : Bool
  dynamicComputeUnitLimit : Bool
  prioritizationFeeLamports : Int
deriving Repr

/-- Field chain `z.number().int().min(0).optional().default(d)` for the
prioritization fee: like `parseIntRange` but with no upper bound. -/
def parseNonNegInt (v : Option Json) (k : String) (d : Int) :
    Except String Int :=
  match v with
  | none => Except.ok d
  | some (Json.num q) =>
      if q.den = 1 then
        if 0 ≤ q.num then Except.ok q.num
        else Except.error (k ++ ": Number out of range")
      else Except.error (k ++ ": Expected integer, received float")
  | some _ => Except.error (k ++ ": Expected number")

/-- `SwapBody.parse(req.body)` (lines 66-73). -/
def validateSwap (j : Json) : Except String SwapData :=
  match j with
  | Json.obj fs => do
      let userPublicKey ← parseStringMin fs "userPublicKey" 32
      let quoteResponse ← parseRecordField fs "quoteResponse"
      let wrapAndUnwrapSol ← parseBoolField fs "wrapAndUnwrapSol" true
      let useSharedAccounts ← parseBoolField fs "useSharedAccounts" true
      let dynamicComputeUnitLimit ← parseBoolField fs "dynamicComputeUnitLimit" true
      let prioritizationFeeLamports ← parseNonNegInt
        (fs.lookup "prioritizationFeeLamports") "prioritizationFeeLamports" 0
      pure ⟨userPublicKey, quoteResponse, wrapAndUnwrapSol, useSharedAccounts,
        dynamicComputeUnitLimit, prioritizationFeeLamports⟩
  | _ => Except.error "Expected object, received other type"

/-! ## Route handlers (lines 76-140)

Each handler performs at most one upstream call, so a handler is a function
of the request body and of the outcome the upstream would deliver; the
`call` field of the outcome records the outbound request actually issued
(`none` when no outbound call is made).  Percent-encoding of the query
string (`URLSearchParams.toString`) is not modelled: the query is kept as
the association list handed to `URLSearchParams`. -/

/-- An HTTP response sent back to the client (`body` is the serialized
JSON; the plain-text banner and 404 bodies are carried as `Json.str`). -/
structure Response where
  status : Nat
  body : Json
deriving Repr

/-- The outbound upstream request a handler issued, if any. -/
structure UpstreamCall where
  method : String
  url : String
  query : List (String × String)
  reqBody : Option Json
deriving Repr

/-- What handling one request produced: the client response plus the
outbound call made, `none` when the upstream was never contacted. -/
structure RouteOutcome where
  response : Response
  call : Option UpstreamCall
deriving Repr

/-- `GET /api/tokens` (lines 84-95): fetch the full token list, project each
record to the five retained fields, answer 200; any thrown error is caught
and mapped to 500 with the error's message.  A non-array upstream body makes
`list.map` throw a TypeError, also caught. -/
def projectToken (t : Json) : Json :=
  mkObj [("address", objField t "address"),
         ("symbol", objField t "symbol"),
         ("name", objField t "name"),
         ("decimals", objField t "decimals"),
         ("tags", some (match objField t "tags" with
                        | some v => if jsTruthy v then v else Json.arr []
                        | none => Json.arr []))]

/-- The fixed outbound request of the tokens route. -/
def tokensCall : UpstreamCall :=
  { method := "GET", url := "https://token.jup.ag/all", query := [], reqBody := none }

def tokensHandler (up : UpstreamResult) : RouteOutcome :=
  match fetchJSON up with
  | Except.error m =>
      { response := { status := 500, body := errBody (catchMsg m) },
        call := some tokensCall }
  | Except.ok js =>
      match js with
      | Json.arr ts =>
          { response := { status := 200,
                          body := Json.obj
                            [("ok", Json.bool true),
                             ("tokens", Json.arr (ts.map projectToken))] },
            call := some tokensCall }
      | _ =>
          { response := { status := 500,
                          body := errBody "list.map is not a function" },
            call := some tokensCall }

/-- The outbound quote request: `GET JUPITER_BASE/v6/quote?params` with the
`URLSearchParams` entries built on lines 101-108. -/
def quoteCall (base : String) (d : QuoteData) : UpstreamCall :=
  { method := "GET", url := base ++ "/v6/quote",
    query := [("inputMint", d.inputMint),
              ("outputMint", d.outputMint),
              ("amount", d.amount),
              ("slippageBps", toString d.slippageBps),
              ("onlyDirectRoutes", cond d.onlyDirectRoutes "true" "false")],
    reqBody := none }

/-- `POST /api/quote` (lines 98-115): validate, call upstream, answer
`{ok:true, quote}`; any thrown error (validation or upstream) is caught and
mapped to 400 with the error's message. -/
def quoteHandler (base : String) (b : Json) (up : UpstreamResult) : RouteOutcome :=
  match validateQuote b with
  | Except.error m =>
      { response := { status := 400, body := errBody (catchMsg m) }, call := none }
  | Except.ok d =>
      match fetchJSON up with
      | Except.error m =>
          { response := { status := 400, body := errBody (catchMsg m) },
            call := some (quoteCall base d) }
      | Except.ok js =>
          { response := { status := 200,
                          body := Json.obj
                            [("ok", Json.bool true), ("quote", js)] },
            call := some (quoteCall base d) }

/-- The outbound swap request: `POST JUPITER_BASE/v6/swap` with the JSON
body built on lines 122-129. -/
def swapCall (base : String) (d : SwapData) : UpstreamCall :=
  { method := "POST", url := base ++ "/v6/swap", query := [],
    reqBody := some (Json.obj
      [("quoteResponse", Json.obj d.quoteResponse),
       ("userPublicKey", Json.str d.userPublicKey),
       ("wrapAndUnwrapSol", Json.bool d.wrapAndUnwrapSol),
       ("dynamicComputeUnitLimit", Json.bool d.dynamicComputeUnitLimit),
       ("prioritizationFeeLamports", Json.num (d.prioritizationFeeLamports : Rat)),
       ("useSharedAccounts", Json.bool d.useSharedAccounts)]) }

/-- `POST /api/swap` (lines 118-140): validate, call upstream, answer
`{ok:true, swapTransaction: js.swapTransaction}` (a missing upstream field
is dropped by serialization); any thrown error is caught and mapped to 400
with the error's message. -/
def swapHandler (base : String) (b : Json) (up : UpstreamResult) : RouteOutcome :=
  match validateSwap b with
  | Except.error m =>
      { response := { status := 400, body := errBody (catchMsg m) }, call := none }
  | Except.ok d =>
      match fetchJSON up with
      | Except.error m =>
          { response := { status := 400, body := errBody (catchMsg m) },
            call := some (swapCall base d) }
      | Except.ok js =>
          { response := { status := 200,
                          body := mkObj
                            [("ok", some (Json.bool true)),
                             ("swapTransaction", objField js "swapTransaction")] },
            call := some (swapCall base d) }

/-! ## Configuration and the per-request pipeline (lines 13-41, 76-81, 143-156) -/

/-- The environment variables the server reads (lines 13-21); `none` models
an unset variable. -/
structure Env where
  port : Option String
  appName : Option String
  logFormat : Option String
  jupiterBase : Option String
  fetchTimeoutMs : Option String
  corsOrigins : Option String
deriving Repr

/-- JS `String.prototype.split(",")` over the character list: an empty
input yields `[""]`, like JS. -/
def splitCommaAux : List Char → List Char → List String
  | [], acc => [String.mk acc.reverse]
  | c :: cs, acc =>
      if c = ',' then String.mk acc.reverse :: splitCommaAux cs []
      else splitCommaAux cs (c :: acc)

def splitComma (s : String) : List String := splitCommaAux s.data []

/-- JS `String.prototype.trim()`: strip leading and trailing whitespace. -/
def jsTrim (s : String) : String :=
  String.mk (((s.data.dropWhile Char.isWhitespace).reverse.dropWhile
    Char.isWhitespace).reverse)

/-- `CORS_ORIGINS` split on commas, trimmed, empties dropped (lines 19-20). -/
def envOriginsOf (env : Env) : List String :=
  (((splitComma (env.corsOrigins.getD "")).map jsTrim)).filter (· ≠ "")

/-- The configured allow-list: the parsed `CORS_ORIGINS`, or the single
hardcoded origin when that list is empty (line 21). -/
def allowedOriginsOf (env : Env) : List String :=
  if envOriginsOf env = [] then ["https://zk-chan.fun"] else envOriginsOf env

def appNameOf (env : Env) : String := env.appName.getD "zkChan Backend"

def jupiterBaseOf (env : Env) : String :=
  env.jupiterBase.getD "https://quote-api.jup.ag"

/-- The rate limiter mounted on `"/api/"` (lines 38-41).  Every option is a
literal in the source — no environment variable is consulted — which the
`Env` argument makes visible. -/
structure RateLimitMount where
  path : String
  windowMs : Nat
  maxRequests : Nat
  standardHeaders : Bool
  legacyHeaders : Bool
deriving Repr, DecidableEq

def rateLimitMountOf (_env : Env) : RateLimitMount :=
  { path := "/api/", windowMs := 60000, maxRequests := 120,
    standardHeaders := true, legacyHeaders := false }

/-- An incoming HTTP request whose body has already been parsed from JSON
(routes without a body ignore the field). -/
structure Request where
  origin : Option String
  method : String
  path : String
  body : Json
deriving Repr

/-- The cors `origin` callback (lines 30-35): requests without an Origin
header and requests from an allow-listed origin pass; anything else errors. -/
def corsAllows (allowed : List String) (origin : Option String) : Bool :=
  match origin with
  | none => true
  | some o => allowed.contains o

/-- Route dispatch (lines 76-140 plus the Express 404 default): `now` is the
timestamp the health route reports. -/
def dispatch (env : Env) (req : Request) (up : UpstreamResult) (now : String) :
    RouteOutcome :=
  match req.method, req.path with
  | "GET", "/" =>
      { response := { status := 200, body := Json.str (appNameOf env ++ " is running") },
        call := none }
  | "GET", "/health" =>
      { response := { status := 200,
                      body := Json.obj
                        [("ok", Json.bool true),
                         ("service", Json.str (appNameOf env)),
                         ("time", Json.str now)] },
        call := none }
  | "GET", "/api/tokens" => tokensHandler up
  | "POST", "/api/quote" => quoteHandler (jupiterBaseOf env) req.body up
  | "POST", "/api/swap" => swapHandler (jupiterBaseOf env) req.body up
  | m, p =>
      { response := { status := 404, body := Json.str ("Cannot " ++ m ++ " " ++ p) },
        call := none }

/-- One request through the middleware pipeline: the cors check runs before
every route; a rejected origin surfaces as the error middleware's 403
`{ok:false, error}` (lines 143-146) and no handler runs.  (The rate limiter
sits between the two; its state machine lives in the third-party library and
is not modelled here.) -/
def handleRequest (env : Env) (req : Request) (up : UpstreamResult)
    (now : String) : RouteOutcome :=
  if corsAllows (allowedOriginsOf env) req.origin then dispatch env req up now
  else
    { response := { status := 403, body := errBody "CORS: origin not allowed" },
      call := none }

/-! ## Predicates naming the properties under scrutiny, and concrete data -/

/-- The request body's `amount` field is a string of one or more decimal
digits (the property `QuoteBody` enforces on `amount`). -/
def amountIsDigitString (b : Json) : Bool :=
  match objField b "amount" with
  | some (Json.str s) => isDigitString s
  | _ => false

/-- A present `slippageBps` value that the `QuoteBody` chain accepts: an
integer-valued number in `[1, 1000]`. -/
def slippageValid : Json → Bool
  | Json.num q => decide (q.den = 1) && decide (1 ≤ q.num) && decide (q.num ≤ 1000)
  | _ => false

/-- The keys of a JSON object, in order. -/
def objKeys : Json → List String
  | Json.obj fs => fs.map Prod.fst
  | _ => []

/-- An environment with every variable unset. -/
def envDefault : Env :=
  { port := none, appName := none, logFormat := none, jupiterBase := none,
    fetchTimeoutMs := none, corsOrigins := none }

/-- A successful upstream response with an empty-object body. -/
def upOk200 : UpstreamResult := UpstreamResult.response 200 (some (Json.obj []))

/-- A quote body whose `amount` is not a digit string. -/
def quoteBadAmountBody : Json :=
  Json.obj [("inputMint", Json.str "So11111111111111111111111111111111111111112"),
            ("outputMint", Json.str "EPjFWdd5AufqSSqeM2qN1xzybapC8G4wEGGkZwyTDt1v"),
            ("amount", Json.str "12.5")]

/-- A quote body whose `slippageBps` is present and out of range. -/
def quoteBadSlippageBody : Json :=
  Json.obj [("inputMint", Json.str "So11111111111111111111111111111111111111112"),
            ("outputMint", Json.str "EPjFWdd5AufqSSqeM2qN1xzybapC8G4wEGGkZwyTDt1v"),
            ("amount", Json.str "1000000"),
            ("slippageBps", Json.num 2000)]

/-- A quote body whose `inputMint` is shorter than 8 characters. -/
def quoteShortMintBody : Json :=
  Json.obj [("inputMint", Json.str "abc"),
            ("outputMint", Json.str "EPjFWdd5AufqSSqeM2qN1xzybapC8G4wEGGkZwyTDt1v"),
            ("amount", Json.str "1000000")]

/-- A swap body whose `userPublicKey` is shorter than 32 characters. -/
def swapShortKeyBody : Json :=
  Json.obj [("userPublicKey", Json.str "shortkey"),
            ("quoteResponse", Json.obj [("inAmount", Json.str "1000000")])]

/-- A valid swap body. -/
def swapGoodBody : Json :=
  Json.obj [("userPublicKey", Json.str "So11111111111111111111111111111111111111112"),
            ("quoteResponse", Json.obj [("inAmount", Json.str "1000000")])]

/-- A token record carrying the four core fields plus extra unknown fields
and no `tags`. -/
def tokenRecordExtra : Json :=
  Json.obj [("address", Json.str "So11111111111111111111111111111111111111112"),
            ("symbol", Json.str "SOL"),
            ("name", Json.str "Wrapped SOL"),
            ("decimals", Json.num 9),
            ("logoURI", Json.str "https://example.com/sol.png"),
            ("extensions", Json.obj [("coingeckoId", Json.str "solana")])]

/-! ## Inversion lemmas for the validators -/

theorem except_bind_ok {α β : Type} {x : Except String α}
    {f : α → Except String β} {v : β}
    (h : (x >>= f) = Except.ok v) : ∃ a, x = Except.ok a ∧ f a = Except.ok v := by
  cases x with
  | error e => exact absurd h (by simp [Bind.bind, Except.bind])
  | ok a => exact ⟨a, rfl, by simpa [Bind.bind, Except.bind] using h⟩

theorem parseStringMin_ok {fs : List (String × Json)} {k : String} {n : Nat}
    {s : String} (h : parseStringMin fs k n = Except.ok s) :
    fs.lookup k = some (Json.str s) ∧ n ≤ s.length := by
  unfold parseStringMin at h
  split at h
  · rename_i s' heq
    split at h
    · rename_i hle
      cases h
      exact ⟨heq, hle⟩
    · cases h
  · cases h
  · cases h

theorem parseDigitString_ok {fs : List (String × Json)} {k : String}
    {s : String} (h : parseDigitString fs k = Except.ok s) :
    fs.lookup k = some (Json.str s) ∧ isDigitString s = true := by
  unfold parseDigitString at h
  split at h
  · rename_i s' heq
    split at h
    · rename_i hd
      cases h
      exact ⟨heq, hd⟩
    · cases h
  · cases h
  · cases h

theorem parseIntRange_some_ok {v : Json} {k : String} {lo hi d i : Int}
    (h : parseIntRange (some v) k lo hi d = Except.ok i) :
    ∃ q : Rat, v = Json.num q ∧ q.den = 1 ∧ q.num = i ∧ lo ≤ i ∧ i ≤ hi := by
  unfold parseIntRange at h
  split at h
  · rename_i heq
    cases heq
  · rename_i q heq
    injection heq with heq
    subst heq
    split at h
    · rename_i hden
      split at h
      · rename_i hrange
        cases h
        exact ⟨q, rfl, hden, rfl, hrange.1, hrange.2⟩
      · cases h
    · cases h
  · cases h

theorem parseRecordField_ok {fs : List (String × Json)} {k : String}
    {o : List (String × Json)} (h : parseRecordField fs k = Except.ok o) :
    fs.lookup k = some (Json.obj o) := by
  unfold parseRecordField at h
  split at h
  · rename_i o' heq
    cases h
    exact heq
  · cases h
  · cases h

/-- What a successful `QuoteBody.parse` tells us about the raw body. -/
theorem validateQuote_ok_fields {b : Json} {d : QuoteData}
    (h : validateQuote b = Except.ok d) :
    objField b "inputMint" = some (Json.str d.inputMint) ∧
    8 ≤ d.inputMint.length ∧
    objField b "outputMint" = some (Json.str d.outputMint) ∧
    8 ≤ d.outputMint.length ∧
    objField b "amount" = some (Json.str d.amount) ∧
    isDigitString d.amount = true ∧
    (objField b "slippageBps" = none → d.slippageBps = 50) ∧
    (∀ v, objField b "slippageBps" = some v → slippageValid v = true) := by
  obtain ⟨fs, rfl⟩ : ∃ fs, b = Json.obj fs := by
    cases b <;> first | exact ⟨_, rfl⟩ | simp [validateQuote] at h
  unfold validateQuote at h
  obtain ⟨im, h1, h⟩ := except_bind_ok h
  obtain ⟨om, h2, h⟩ := except_bind_ok h
  obtain ⟨am, h3, h⟩ := except_bind_ok h
  obtain ⟨sl, h4, h⟩ := except_bind_ok h
  obtain ⟨od, h5, h⟩ := except_bind_ok h
  cases h
  obtain ⟨hi1, hi2⟩ := parseStringMin_ok h1
  obtain ⟨ho1, ho2⟩ := parseStringMin_ok h2
  obtain ⟨ha1, ha2⟩ := parseDigitString_ok h3
  refine ⟨hi1, hi2, ho1, ho2, ha1, ha2, ?_, ?_⟩
  · intro hnone
    simp only [objField] at hnone
    rw [hnone] at h4
    cases h4
    rfl
  · intro v hv
    simp only [objField] at hv
    rw [hv] at h4
    obtain ⟨q, hq, hden, hnum, hlo, hhi⟩ := parseIntRange_some_ok h4
    subst hq
    simp [slippageValid, hden, hnum, hlo, hhi]

/-- What a successful `SwapBody.parse` tells us about the raw body. -/
theorem validateSwap_ok_fields {b : Json} {d : SwapData}
    (h : validateSwap b = Except.ok d) :
    objField b "userPublicKey" = some (Json.str d.userPublicKey) ∧
    32 ≤ d.userPublicKey.length ∧
    objField b "quoteResponse" = some (Json.obj d.quoteResponse) := by
  obtain ⟨fs, rfl⟩ : ∃ fs, b = Json.obj fs := by
    cases b <;> first | exact ⟨_, rfl⟩ | simp [validateSwap] at h
  unfold validateSwap at h
  obtain ⟨pk, h1, h⟩ := except_bind_ok h
  obtain ⟨qr, h2, h⟩ := except_bind_ok h
  obtain ⟨w, h3, h⟩ := except_bind_ok h
  obtain ⟨u, h4, h⟩ := except_bind_ok h
  obtain ⟨dy, h5, h⟩ := except_bind_ok h
  obtain ⟨fee, h6, h⟩ := except_bind_ok h
  cases h
  obtain ⟨hk1, hk2⟩ := parseStringMin_ok h1
  exact ⟨hk1, hk2, parseRecordField_ok h2⟩

/-! ## Pipeline lemmas -/

/-- With an acceptable origin, a `POST /api/quote` request reaches the quote
handler. -/
theorem handleRequest_quote {env : Env} {o : Option String} {b : Json}
    {up : UpstreamResult} {now : String}
    (hc : corsAllows (allowedOriginsOf env) o = true) :
    handleRequest env ⟨o, "POST", "/api/quote", b⟩ up now =
      quoteHandler (jupiterBaseOf env) b up := by
  simp [handleRequest, hc, dispatch]

/-- With an acceptable origin, a `POST /api/swap` request reaches the swap
handler. -/
theorem handleRequest_swap {env : Env} {o : Option String} {b : Json}
    {up : UpstreamResult} {now : String}
    (hc : corsAllows (allowedOriginsOf env) o = true) :
    handleRequest env ⟨o, "POST", "/api/swap", b⟩ up now =
      swapHandler (jupiterBaseOf env) b up := by
  simp [handleRequest, hc, dispatch]

/-! ## Claim theorems -/

/-- C3: every `POST /api/quote` request (accepted origin) whose body lacks an
`amount` field holding a string of one or more decimal digits is answered
with HTTP 400, and no outbound upstream call is made for it. -/
theorem quote_nondigit_amount_400_no_call (env : Env) (o : Option String)
    (b : Json) (up : UpstreamResult) (now : String)
    (hc : corsAllows (allowedOriginsOf env) o = true)
    (ha : amountIsDigitString b = false) :
    (handleRequest env ⟨o, "POST", "/api/quote", b⟩ up now).response.status = 400 ∧
    (handleRequest env ⟨o, "POST", "/api/quote", b⟩ up now).call = none := by
  rw [handleRequest_quote hc]
  cases hv : validateQuote b with
  | error m => simp [quoteHandler, hv]
  | ok d =>
    exfalso
    obtain ⟨-, -, -, -, ham, hdig, -, -⟩ := validateQuote_ok_fields hv
    unfold amountIsDigitString at ha
    rw [ham] at ha
    simp [hdig] at ha

/-- C3 witness: the concrete body with `amount = "12.5"` is answered 400 and
triggers no outbound call. -/
theorem quote_nondigit_amount_400_no_call_witness :
    corsAllows (allowedOriginsOf envDefault) none = true ∧
    amountIsDigitString quoteBadAmountBody = false ∧
    (handleRequest envDefault ⟨none, "POST", "/api/quote", quoteBadAmountBody⟩
        upOk200 "2026-10-11T00:00:00.000Z").response.status = 400 ∧
    (handleRequest envDefault ⟨none, "POST", "/api/quote", quoteBadAmountBody⟩
        upOk200 "2026-10-11T00:00:00.000Z").call = none := by
  have h := quote_nondigit_amount_400_no_call envDefault none quoteBadAmountBody
    upOk200 "2026-10-11T00:00:00.000Z" rfl (by decide)
  exact ⟨rfl, by decide, h.1, h.2⟩

/-- C10: every `POST /api/quote` request (accepted origin) whose `inputMint`
or `outputMint` is a string of fewer than 8 characters is answered with
HTTP 400, and no outbound upstream call is made — the `min(8)` length
constraint of `QuoteBody`. -/
theorem quote_short_mint_400_no_call (env : Env) (o : Option String) (b : Json)
    (up : UpstreamResult) (now : String) (s : String)
    (hc : corsAllows (allowedOriginsOf env) o = true)
    (hmint : objField b "inputMint" = some (Json.str s) ∨
             objField b "outputMint" = some (Json.str s))
    (hshort : s.length < 8) :
    (handleRequest env ⟨o, "POST", "/api/quote", b⟩ up now).response.status = 400 ∧
    (handleRequest env ⟨o, "POST", "/api/quote", b⟩ up now).call = none := by
  rw [handleRequest_quote hc]
  cases hv : validateQuote b with
  | error m => simp [quoteHandler, hv]
  | ok d =>
    exfalso
    obtain ⟨him, hil, hom, hol, -, -, -, -⟩ := validateQuote_ok_fields hv
    cases hmint with
    | inl h =>
      rw [him] at h
      injection h with h
      injection h with h
      subst h
      omega
    | inr h =>
      rw [hom] at h
      injection h with h
      injection h with h
      subst h
      omega

/-- C10 witness: the concrete body with the 3-character `inputMint` is
answered 400 with no outbound call. -/
theorem quote_short_mint_400_no_call_witness :
    ("abc" : String).length < 8 ∧
    objField quoteShortMintBody "inputMint" = some (Json.str "abc") ∧
    (handleRequest envDefault ⟨none, "POST", "/api/quote", quoteShortMintBody⟩
        upOk200 "t").response.status = 400 ∧
    (handleRequest envDefault ⟨none, "POST", "/api/quote", quoteShortMintBody⟩
        upOk200 "t").call = none := by
  have h := quote_short_mint_400_no_call envDefault none quoteShortMintBody
    upOk200 "t" "abc" rfl (Or.inl rfl) (by decide)
  exact ⟨by decide, rfl, h.1, h.2⟩

/-- C8: every `POST /api/swap` request (accepted origin) carrying a
`quoteResponse` object and a `userPublicKey` string shorter than 32
characters is answered with HTTP 400 and an `{ok:false, error}` body, and no
outbound upstream call is made. -/
theorem swap_short_pubkey_400_no_call (env : Env) (o : Option String) (b : Json)
    (up : UpstreamResult) (now : String) (qr : List (String × Json)) (pk : String)
    (hc : corsAllows (allowedOriginsOf env) o = true)
    ( _hq : objField b "quoteResponse" = some (Json.obj qr))
    (hk : objField b "userPublicKey" = some (Json.str pk))
    (hshort : pk.length < 32) :
    (handleRequest env ⟨o, "POST", "/api/swap", b⟩ up now).response.status = 400 ∧
    (∃ e, (handleRequest env ⟨o, "POST", "/api/swap", b⟩ up now).response.body = errBody e) ∧
    (handleRequest env ⟨o, "POST", "/api/swap", b⟩ up now).call = none := by
  rw [handleRequest_swap hc]
  cases hv : validateSwap b with
  | error m =>
    exact ⟨by simp [swapHandler, hv], ⟨catchMsg m, by simp [swapHandler, hv]⟩,
      by simp [swapHandler, hv]⟩
  | ok d =>
    exfalso
    obtain ⟨hkk, hkl, -⟩ := validateSwap_ok_fields hv
    rw [hkk] at hk
    injection hk with hk
    injection hk with hk
    subst hk
    omega

/-- C8 witness: the concrete body with the 8-character `userPublicKey` is
answered 400 with an error body and no outbound call. -/
theorem swap_short_pubkey_400_no_call_witness :
    ("shortkey" : String).length < 32 ∧
    objField swapShortKeyBody "userPublicKey" = some (Json.str "shortkey") ∧
    (handleRequest envDefault ⟨none, "POST", "/api/swap", swapShortKeyBody⟩
        upOk200 "t").response.status = 400 ∧
    (∃ e, (handleRequest envDefault ⟨none, "POST", "/api/swap", swapShortKeyBody⟩
        upOk200 "t").response.body = errBody e) ∧
    (handleRequest envDefault ⟨none, "POST", "/api/swap", swapShortKeyBody⟩
        upOk200 "t").call = none := by
  have h := swap_short_pubkey_400_no_call envDefault none swapShortKeyBody upOk200 "t"
    [("inAmount", Json.str "1000000")] "shortkey" rfl rfl rfl (by decide)
  exact ⟨by decide, rfl, h.1, h.2.1, h.2.2⟩

/-- C6: every request whose Origin header is present and not in the
configured allow-list is answered with HTTP 403 and body
`{ok:false, error}`, on every route (method, path and body are arbitrary
here), and no handler logic runs: the outcome is this constant, so no
outbound call is made and the upstream outcome is never consulted. -/
theorem disallowed_origin_403_no_handler (env : Env) (req : Request)
    (up : UpstreamResult) (now : String) (o : String)
    (ho : req.origin = some o)
    (hna : (allowedOriginsOf env).contains o = false) :
    handleRequest env req up now =
      { response := { status := 403, body := errBody "CORS: origin not allowed" },
        call := none } := by
  have hno : o ∉ allowedOriginsOf env := by simpa using hna
  simp [handleRequest, corsAllows, ho, hno]

/-- C6 witness: a request from a non-allow-listed origin to the tokens route
is answered 403 with no outbound call. -/
theorem disallowed_origin_403_no_handler_witness :
    (allowedOriginsOf envDefault).contains "https://evil.example" = false ∧
    handleRequest envDefault
        ⟨some "https://evil.example", "GET", "/api/tokens", Json.null⟩ upOk200 "t" =
      { response := { status := 403, body := errBody "CORS: origin not allowed" },
        call := none } :=
  ⟨by decide, disallowed_origin_403_no_handler envDefault
    ⟨some "https://evil.example", "GET", "/api/tokens", Json.null⟩ upOk200 "t"
    "https://evil.example" rfl (by decide)⟩

/-- C5: a `POST /api/quote` request (accepted origin) whose `slippageBps`
field is present but not an integer-valued number in `[1, 1000]` is answered
with HTTP 400; an absent `slippageBps` passes its field validation with the
default value 50, which a successful whole-body validation therefore
reports. -/
theorem slippage_range_and_default :
    (∀ (env : Env) (o : Option String) (b : Json) (up : UpstreamResult)
       (now : String) (v : Json),
       corsAllows (allowedOriginsOf env) o = true →
       objField b "slippageBps" = some v → slippageValid v = false →
       (handleRequest env ⟨o, "POST", "/api/quote", b⟩ up now).response.status = 400) ∧
    parseIntRange none "slippageBps" 1 1000 50 = Except.ok 50 ∧
    (∀ (b : Json) (d : QuoteData), validateQuote b = Except.ok d →
       objField b "slippageBps" = none → d.slippageBps = 50) := by
  refine ⟨?_, rfl, ?_⟩
  · intro env o b up now v hc hp hval
    rw [handleRequest_quote hc]
    cases hv : validateQuote b with
    | error m => simp [quoteHandler, hv]
    | ok d =>
      exfalso
      obtain ⟨-, -, -, -, -, -, -, hsl⟩ := validateQuote_ok_fields hv
      have ht := hsl v hp
      rw [hval] at ht
      cases ht
  · intro b d hv hnone
    exact (validateQuote_ok_fields hv).2.2.2.2.2.2.1 hnone

/-- C5 witness: the concrete body with `slippageBps = 2000` is answered
400. -/
theorem slippage_range_and_default_witness :
    slippageValid (Json.num 2000) = false ∧
    objField quoteBadSlippageBody "slippageBps" = some (Json.num 2000) ∧
    (handleRequest envDefault ⟨none, "POST", "/api/quote", quoteBadSlippageBody⟩
        upOk200 "t").response.status = 400 :=
  ⟨by decide, rfl, slippage_range_and_default.1 envDefault none quoteBadSlippageBody
    upOk200 "t" (Json.num 2000) rfl rfl (by decide)⟩

/-- C4: the tokens route answers a successful upstream list with exactly the
per-record projection; and for any record carrying at least the four core
fields (arbitrary extra fields included), the projection has exactly the
keys address, symbol, name, decimals, tags, with `tags` the empty array when
the record has no `tags` field. -/
theorem tokens_projection_exact_fields :
    (∀ ts : List Json,
       (tokensHandler (UpstreamResult.response 200 (some (Json.arr ts)))).response =
         { status := 200,
           body := Json.obj [("ok", Json.bool true),
                             ("tokens", Json.arr (ts.map projectToken))] }) ∧
    (∀ t : Json, (objField t "address").isSome = true →
       (objField t "symbol").isSome = true →
       (objField t "name").isSome = true →
       (objField t "decimals").isSome = true →
       objKeys (projectToken t) = ["address", "symbol", "name", "decimals", "tags"] ∧
       (objField t "tags" = none →
         objField (projectToken t) "tags" = some (Json.arr []))) := by
  constructor
  · intro ts
    rfl
  · intro t ha hs hn hd
    obtain ⟨va, ha⟩ := Option.isSome_iff_exists.mp ha
    obtain ⟨vs, hs⟩ := Option.isSome_iff_exists.mp hs
    obtain ⟨vn, hn⟩ := Option.isSome_iff_exists.mp hn
    obtain ⟨vd, hd⟩ := Option.isSome_iff_exists.mp hd
    constructor
    · simp only [projectToken, ha, hs, hn, hd]
      rfl
    · intro htags
      simp only [projectToken, ha, hs, hn, hd, htags]
      rfl

/-- C4 witness: the concrete record with two extra fields and no `tags` is
projected to exactly the five declared keys with an empty `tags` array. -/
theorem tokens_projection_exact_fields_witness :
    (objField tokenRecordExtra "address").isSome = true ∧
    (objField tokenRecordExtra "logoURI").isSome = true ∧
    objField tokenRecordExtra "tags" = none ∧
    objKeys (projectToken tokenRecordExtra) =
      ["address", "symbol", "name", "decimals", "tags"] ∧
    objField (projectToken tokenRecordExtra) "tags" = some (Json.arr []) := by
  have h := tokens_projection_exact_fields.2 tokenRecordExtra rfl rfl rfl rfl
  exact ⟨rfl, rfl, rfl, h.1, h.2 rfl⟩

/-- C7: a successful `POST /api/swap` (validation passed, upstream call
succeeded) is answered 200 with exactly `{ok:true, swapTransaction}` where
`swapTransaction` is the single field extracted from the upstream payload —
dropped from the serialized body, with no error, when the upstream payload
lacks it. -/
theorem swap_success_response_shape (base : String) (b : Json) (up : UpstreamResult)
    (d : SwapData) (js : Json) (hv : validateSwap b = Except.ok d)
    (hf : fetchJSON up = Except.ok js) :
    (objField js "swapTransaction" = none →
       (swapHandler base b up).response =
         { status := 200, body := Json.obj [("ok", Json.bool true)] }) ∧
    (∀ v, objField js "swapTransaction" = some v →
       (swapHandler base b up).response =
         { status := 200,
           body := Json.obj [("ok", Json.bool true), ("swapTransaction", v)] }) := by
  constructor
  · intro hmiss
    simp [swapHandler, hv, hf, mkObj, hmiss]
  · intro v hv2
    simp [swapHandler, hv, hf, mkObj, hv2]

/-- C7 witness: a valid swap body with an upstream payload lacking
`swapTransaction` is answered 200 with body `{ok:true}` and no error. -/
theorem swap_success_response_shape_witness :
    validateSwap swapGoodBody = Except.ok
      ⟨"So11111111111111111111111111111111111111112",
       [("inAmount", Json.str "1000000")], true, true, true, 0⟩ ∧
    fetchJSON upOk200 = Except.ok (Json.obj []) ∧
    objField (Json.obj []) "swapTransaction" = none ∧
    (swapHandler "https://quote-api.jup.ag" swapGoodBody upOk200).response =
      { status := 200, body := Json.obj [("ok", Json.bool true)] } :=
  ⟨rfl, rfl, rfl, (swap_success_response_shape "https://quote-api.jup.ag" swapGoodBody
    upOk200 _ (Json.obj []) rfl rfl).1 rfl⟩

/-- C1 counterexample: the tokens route performs an upstream call, yet maps
an upstream non-success status to HTTP 500, not 400 — refuting the claim
that every such route maps upstream-related errors to 400. -/
theorem tokens_route_maps_upstream_error_to_500 :
    (tokensHandler (UpstreamResult.response 503 (some (Json.obj [])))).response.status = 500 ∧
    ¬ (tokensHandler (UpstreamResult.response 503 (some (Json.obj [])))).response.status = 400 :=
  ⟨rfl, by decide⟩

/-- C1 (amended): validation errors and upstream-related errors raised in
the quote and swap handlers are caught inside the handler and mapped to
HTTP 400 with body `{ok:false, error}` carrying the caught message; the
tokens handler also catches upstream-related errors but maps them to
HTTP 500 with the same body shape. -/
theorem per_route_error_mapping :
    (∀ (base : String) (b : Json) (up : UpstreamResult) (m : String),
       validateQuote b = Except.error m →
       quoteHandler base b up =
         { response := { status := 400, body := errBody (catchMsg m) }, call := none }) ∧
    (∀ (base : String) (b : Json) (up : UpstreamResult) (d : QuoteData) (m : String),
       validateQuote b = Except.ok d → fetchJSON up = Except.error m →
       (quoteHandler base b up).response =
         { status := 400, body := errBody (catchMsg m) }) ∧
    (∀ (base : String) (b : Json) (up : UpstreamResult) (m : String),
       validateSwap b = Except.error m →
       swapHandler base b up =
         { response := { status := 400, body := errBody (catchMsg m) }, call := none }) ∧
    (∀ (base : String) (b : Json) (up : UpstreamResult) (d : SwapData) (m : String),
       validateSwap b = Except.ok d → fetchJSON up = Except.error m →
       (swapHandler base b up).response =
         { status := 400, body := errBody (catchMsg m) }) ∧
    (∀ (up : UpstreamResult) (m : String), fetchJSON up = Except.error m →
       (tokensHandler up).response =
         { status := 500, body := errBody (catchMsg m) }) := by
  refine ⟨?_, ?_, ?_, ?_, ?_⟩
  · intro base b up m h
    simp [quoteHandler, h]
  · intro base b up d m hv hf
    simp [quoteHandler, hv, hf]
  · intro base b up m h
    simp [swapHandler, h]
  · intro base b up d m hv hf
    simp [swapHandler, hv, hf]
  · intro up m h
    simp [tokensHandler, h]

/-- C1 witness: a non-object quote body is caught and answered 400 with the
caught validation message. -/
theorem per_route_error_mapping_witness :
    validateQuote Json.null = Except.error "Expected object, received other type" ∧
    quoteHandler "https://quote-api.jup.ag" Json.null upOk200 =
      { response := { status := 400,
                      body := errBody (catchMsg "Expected object, received other type") },
        call := none } :=
  ⟨rfl, per_route_error_mapping.1 "https://quote-api.jup.ag" Json.null upOk200 _ rfl⟩

/-- C2 counterexample: an upstream 500 whose body carries the `error` field
with the empty-string value — present, but falsy — produces the generic
fetch-failed message, not that field, refuting the claim that a present
`error` field is always used as the message. -/
theorem fetch_error_field_present_but_ignored :
    objField (Json.obj [("error", Json.str "")]) "error" = some (Json.str "") ∧
    fetchJSON (UpstreamResult.response 500 (some (Json.obj [("error", Json.str "")]))) =
      Except.error "Fetch failed: 500" ∧
    "Fetch failed: 500" ≠ "" :=
  ⟨rfl, rfl, by decide⟩

/-- C2 (amended): the upstream client parses the body as JSON regardless of
status (empty object when parsing failed) and returns it on a success
status; on a non-success status it fails with the stringified `error` field
of the parsed body when that field is present with a truthy value, and
otherwise with the generic fetch-failed message carrying the numeric status
code. -/
theorem fetchJSON_error_classification :
    (∀ (st : Nat) (b : Option Json), statusOk st = true →
       fetchJSON (UpstreamResult.response st b) = Except.ok (b.getD (Json.obj []))) ∧
    (∀ (st : Nat) (js v : Json), statusOk st = false →
       objField js "error" = some v → jsTruthy v = true →
       fetchJSON (UpstreamResult.response st (some js)) = Except.error (jsToString v)) ∧
    (∀ (st : Nat) (js v : Json), statusOk st = false →
       objField js "error" = some v → jsTruthy v = false →
       fetchJSON (UpstreamResult.response st (some js)) = Except.error (fetchFailedMsg st)) ∧
    (∀ (st : Nat) (js : Json), statusOk st = false → objField js "error" = none →
       fetchJSON (UpstreamResult.response st (some js)) = Except.error (fetchFailedMsg st)) ∧
    (∀ st : Nat, statusOk st = false →
       fetchJSON (UpstreamResult.response st none) = Except.error (fetchFailedMsg st)) := by
  refine ⟨?_, ?_, ?_, ?_, ?_⟩
  · intro st b h
    simp [fetchJSON, h]
  · intro st js v h h2 h3
    simp [fetchJSON, h, h2, h3]
  · intro st js v h h2 h3
    simp [fetchJSON, h, h2, h3]
  · intro st js h h2
    simp [fetchJSON, h, h2]
  · intro st h
    simp [fetchJSON, h, objField]

/-- C2 witness: a 503 with a non-empty `error` string in the body fails with
exactly that string as the message. -/
theorem fetchJSON_error_classification_witness :
    statusOk 503 = false ∧
    jsTruthy (Json.str "boom") = true ∧
    fetchJSON (UpstreamResult.response 503 (some (Json.obj [("error", Json.str "boom")]))) =
      Except.error (jsToString (Json.str "boom")) :=
  ⟨rfl, rfl, fetchJSON_error_classification.2.1 503 (Json.obj [("error", Json.str "boom")])
    (Json.str "boom") rfl rfl rfl⟩

/-- C9 counterexample: the maximum request count of the rate limiter is not
configurable — no two environments yield different maxima, refuting the
claim that the maximum is configurable. -/
theorem rate_limit_max_not_configurable :
    ¬ ∃ e1 e2 : Env, (rateLimitMountOf e1).maxRequests ≠ (rateLimitMountOf e2).maxRequests := by
  rintro ⟨e1, e2, h⟩
  exact h rfl

/-- C9 (amended): the server mounts, on all paths under `/api/`, a rate
limiter with a 60-second window and a fixed maximum of 120 requests
(standard rate-limit headers on, legacy headers off), independent of the
environment. The sliding-or-fixed window semantics and the 429 response live
in the third-party limiter, outside this repository. -/
theorem rate_limit_mount_constant (env : Env) :
    rateLimitMountOf env =
      { path := "/api/", windowMs := 60000, maxRequests := 120,
        standardHeaders := true, legacyHeaders := false } := rfl

/-- C9 witness: the default environment mounts exactly that limiter. -/
theorem rate_limit_mount_constant_witness :
    rateLimitMountOf envDefault =
      { path := "/api/", windowMs := 60000, maxRequests := 120,
        standardHeaders := true, legacyHeaders := false } :=
  rate_limit_mount_constant envDefault

end ZkChan
